import Mathlib

/-!
Shallow embedding of `src/app.py` (a Dash weather/map application).

Numbers that the Python code handles as floats (coordinates, temperatures)
are modelled as rationals: no claim depends on floating-point rounding,
only on values being passed through unchanged.

External HTTP interactions are modelled by an environment record that fixes
the outcome of each request the code may issue; the embedded functions are
deterministic functions of that environment, mirroring the Python control
flow (including its `try`/`except` placement and Python local-variable
scoping, where a branch can leave a local unassigned and the final `return`
then raises `UnboundLocalError`).
-/

namespace WeatherApp

/-- Outcome of one `requests.get(...)` + `raise_for_status` + `.json()`
round trip: either a decoded payload or a raised exception (network error,
timeout, non-2xx status, or malformed body). -/
inductive HttpResult (α : Type) where
  | ok : α → HttpResult α
  | fail : HttpResult α
deriving DecidableEq, Repr

/-- Decoded body of the Mapbox geocoding response that `get_coordinates`
reads: `data['features'][i]['geometry']['coordinates']` is a list of
numbers for each feature. -/
structure GeoData where
  features : List (List ℚ)
deriving DecidableEq, Repr

/-- A coordinate as `get_coordinates` returns it:
`{'lon': coordinates[0], 'lat': coordinates[1]}`. -/
structure Coord where
  lon : ℚ
  lat : ℚ
deriving DecidableEq, Repr

/-- Outcome of one day's `history.json` request in `get_historical_weather`:
`ok t` — the response has `forecast.forecastday` and `avgtemp_c = t`;
`nodata` — the request succeeds but the keys are missing (day skipped);
`fail` — the request raises (caught by the `try` wrapping the whole loop). -/
inductive DayResult where
  | ok : ℚ → DayResult
  | nodata : DayResult
  | fail : DayResult
deriving DecidableEq, Repr

/-- Outcome of the `current.json` request in `get_weather`:
`ok t` — response has a `current` object with `temp_c = t`;
`nodata` — response lacks the `current` key; `fail` — the request raises. -/
inductive CurrentResult where
  | ok : ℚ → CurrentResult
  | nodata : CurrentResult
  | fail : CurrentResult
deriving DecidableEq, Repr

/-- One entry of the `historical_data` list built by `get_historical_weather`:
`{'date': date, 'temperature': temperature}`. The date string
`(datetime.now() - timedelta(days=i)).strftime(...)` is represented by the
day offset `i` itself (distinct offsets give distinct date strings). -/
structure Sample where
  date : Nat
  temperature : ℚ
deriving DecidableEq, Repr

/-- Environment fixing the outcome of every request the callback may issue:
the geocoding response, the current-weather response, and the per-day
historical responses (indexed by day offset). -/
structure Env where
  geo : HttpResult GeoData
  current : CurrentResult
  hist : Nat → DayResult

/-- `get_coordinates` (src/app.py lines 68-83): one geocoding request; on
any exception the handler prints and the function returns `None`; on a
normal response it returns the first feature's first two coordinate
components as lon/lat, or `None` when `features` is empty. A features
entry shorter than two components raises `IndexError` inside the `try`,
which the handler also turns into `None`. -/
def get_coordinates (resp : HttpResult GeoData) : Option Coord :=
  match resp with
  | .fail => none
  | .ok data =>
    match data.features with
    | [] => none
    | c :: _ =>
      match c with
      | c0 :: c1 :: _ => some { lon := c0, lat := c1 }
      | _ => none

/-- The `for i in range(days)` loop body of `get_historical_weather`,
iterating over the remaining day offsets. A raised exception (`.fail`)
is caught by the `try` that wraps the WHOLE loop, so the function returns
the entries accumulated so far and the remaining days are not attempted;
a response without forecast data is skipped and the loop continues. -/
def histLoop (hist : Nat → DayResult) : List Nat → List Sample
  | [] => []
  | i :: rest =>
    match hist i with
    | .fail => []
    | .nodata => histLoop hist rest
    | .ok t => { date := i, temperature := t } :: histLoop hist rest

/-- `get_historical_weather` (src/app.py lines 86-105): requests one day at
a time for offsets `0..days-1` (most recent first) and collects the days
that returned forecast data. The single `try` around the loop means an
exception on one day ends the loop early. -/
def get_historical_weather (hist : Nat → DayResult) (days : Nat) : List Sample :=
  histLoop hist (List.range days)

/-- `get_weather` (src/app.py lines 108-123): one current-conditions
request; returns `temp_c` when the response has a `current` object,
`None` when the key is missing or the request raised. -/
def get_weather (resp : CurrentResult) : Option ℚ :=
  match resp with
  | .ok t => some t
  | .nodata => none
  | .fail => none

/-- One marker trace as built by `go.Figure(go.Scattermapbox(...))` in the
callback: point coordinates plus its text label. -/
structure Marker where
  lat : ℚ
  lon : ℚ
  text : String
deriving DecidableEq, Repr

/-- The data of the map figure the callback returns: marker traces and the
`mapbox` layout's center and zoom. -/
structure MapFig where
  markers : List Marker
  centerLat : ℚ
  centerLon : ℚ
  zoom : Nat
deriving DecidableEq, Repr

/-- The data of the line-chart figure: the scatter trace's points (empty
when no trace was added) and the layout title (`none` for a bare
`go.Figure()` with no `update_layout` call). -/
structure Chart where
  series : List Sample
  title : Option String
deriving DecidableEq, Repr

/-- The triple a successful callback invocation returns:
`(map figure, line-chart figure, location-info text)`. -/
structure CallbackResult where
  fig : MapFig
  line_chart : Chart
  location_info : String
deriving DecidableEq, Repr

/-- The default map figure built in the `else` branch (and at module load):
centered on Taiwan (lat 23.6978, lon 120.9605), zoom 7, no markers. -/
def defaultFig : MapFig :=
  { markers := [], centerLat := 23.6978, centerLon := 120.9605, zoom := 7 }

/-- The fixed prompt shown before any query (src/app.py line 220). -/
def promptMessage : String :=
  "Enter a location and click \x27Query\x27 to show the weather data and location on the map"

/-- The result of the `else` branch of the callback: default figure, bare
empty chart, fixed prompt. -/
def awaitingResult : CallbackResult :=
  { fig := defaultFig, line_chart := { series := [], title := none },
    location_info := promptMessage }

/-- One network request the code issues, identified by endpoint and
arguments. -/
inductive Call where
  | geocode : String → Call
  | currentWeather : ℚ → ℚ → Call
  | historyWeather : ℚ → ℚ → Nat → Call
deriving DecidableEq, Repr

/-- The requests `get_historical_weather` issues over the remaining day
offsets: one per day, stopping after the first day whose request raises
(that request itself was still issued). -/
def histCallsLoop (hist : Nat → DayResult) (lat lon : ℚ) : List Nat → List Call
  | [] => []
  | i :: rest =>
    Call.historyWeather lat lon i ::
    match hist i with
    | .fail => []
    | _ => histCallsLoop hist lat lon rest

/-- `update_map_and_weather` (src/app.py lines 133-223), modelled with
Python local-variable semantics. Both `fig` and `location_info` are
assigned somewhere in the function body, so Python treats them as locals
throughout; a branch that reaches the final `return` without assigning one
of them raises `UnboundLocalError`, modelled as `Except.error`:
- geocode miss or failure (`coords` is `None`): `fig` never assigned;
- geocode hit but `get_weather` returns `None`: `location_info` never
  assigned (the `else` that would assign it is commented out, lines
  175-176).
Truthiness of `location_name`: `None` and the empty string are falsy;
any other string (including whitespace-only) is truthy. -/
def update_map_and_weather (env : Env) (n_clicks : Nat) (location_name : Option String) :
    Except String CallbackResult :=
  let name := location_name.getD ""
  if 0 < n_clicks ∧ name ≠ "" then
    match get_coordinates env.geo with
    | some coords =>
      let lat := coords.lat
      let lon := coords.lon
      let fig : MapFig :=
        { markers := [{ lat := lat, lon := lon, text := name }],
          centerLat := lat, centerLon := lon, zoom := 7 }
      let temperature := get_weather env.current
      let historical_data := get_historical_weather env.hist 7
      let line_chart : Chart :=
        if historical_data ≠ [] then
          { series := historical_data,
            title := some ("Historical Weather Data for " ++ name) }
        else
          { series := [], title := some "No historical data available" }
      match temperature with
      | some t =>
        Except.ok { fig := fig, line_chart := line_chart,
                    location_info := "Current temperature: " ++ toString t ++ "°C" }
      | none => Except.error "UnboundLocalError: location_info"
    | none => Except.error "UnboundLocalError: fig"
  else
    Except.ok awaitingResult

/-- The list of network requests one invocation of the callback issues, in
order: nothing in the `else` branch; the single geocoding request always;
then, only when the geocode resolved, the current-weather request followed
by the historical per-day requests. -/
def update_calls (env : Env) (n_clicks : Nat) (location_name : Option String) : List Call :=
  let name := location_name.getD ""
  if 0 < n_clicks ∧ name ≠ "" then
    Call.geocode name ::
    match get_coordinates env.geo with
    | some coords =>
      Call.currentWeather coords.lat coords.lon ::
      histCallsLoop env.hist coords.lat coords.lon (List.range 7)
    | none => []
  else []

/-- One point of Dash `clickData`: the clicked marker's coordinates. -/
structure ClickPoint where
  lat : ℚ
  lon : ℚ
deriving DecidableEq, Repr

/-- Dash `clickData` payload: the list under its `points` key. -/
structure ClickData where
  points : List ClickPoint
deriving DecidableEq, Repr

/-- `print_coordinates` (src/app.py lines 230-236): when `clickData` is not
`None` it reads `clickData['points'][0]` (raising `IndexError` if `points`
is empty) and prints; it returns `clickData` unchanged. The print goes to
the console and touches no figure or marker state. -/
def print_coordinates (clickData : Option ClickData) : Except String (Option ClickData) :=
  match clickData with
  | none => Except.ok none
  | some d =>
    match d.points with
    | [] => Except.error "IndexError"
    | _ :: _ => Except.ok (some d)

/-- The sample that day offset `i` contributes when its lookup succeeds:
`some` of the dated temperature for an `ok` response, `none` otherwise. -/
def sampleOf (hist : Nat → DayResult) (i : Nat) : Option Sample :=
  match hist i with
  | .ok t => some { date := i, temperature := t }
  | _ => none

/-- When no day in the iteration list raises, the loop keeps exactly the
days with forecast data, in iteration order. -/
theorem histLoop_eq_filterMap (hist : Nat → DayResult) :
    ∀ l : List Nat, (∀ i ∈ l, hist i ≠ DayResult.fail) →
      histLoop hist l = l.filterMap (sampleOf hist) := by
  intro l
  induction l with
  | nil => intro _; rfl
  | cons i rest ih =>
    intro h
    have hi : hist i ≠ DayResult.fail := h i (List.mem_cons_self i rest)
    have hrest : ∀ j ∈ rest, hist j ≠ DayResult.fail :=
      fun j hj => h j (List.mem_cons_of_mem i hj)
    cases hc : hist i with
    | fail => exact absurd hc hi
    | nodata => simp [histLoop, hc, List.filterMap_cons, sampleOf, ih hrest]
    | ok t => simp [histLoop, hc, List.filterMap_cons, sampleOf, ih hrest]

/-- A raising day ends the loop: everything at or after it is discarded,
whatever stands before it is processed as usual. -/
theorem histLoop_append_of_fail (hist : Nat → DayResult) (i : Nat)
    (hi : hist i = DayResult.fail) :
    ∀ l₁ l₂ : List Nat, histLoop hist (l₁ ++ i :: l₂) = histLoop hist l₁ := by
  intro l₁ l₂
  induction l₁ with
  | nil => simp [histLoop, hi]
  | cons j rest ih =>
    cases hj : hist j with
    | fail => simp [histLoop, hj]
    | nodata => simp [histLoop, hj, ih]
    | ok t => simp [histLoop, hj, ih]

/-- A range splits at any element below its bound. -/
theorem range_eq_append_of_lt :
    ∀ days i : Nat, i < days → ∃ l₂, List.range days = List.range i ++ i :: l₂ := by
  intro days
  induction days with
  | zero => intro i h; exact absurd h (Nat.not_lt_zero i)
  | succ d ih =>
    intro i h
    rcases Nat.lt_succ_iff_lt_or_eq.mp h with h | h
    · rcases ih i h with ⟨l₂, hl⟩
      refine ⟨l₂ ++ [d], ?_⟩
      rw [List.range_succ, hl]
      simp
    · subst h
      exact ⟨[], List.range_succ i⟩

/-- Per-day responses for the refuting run: the lookups for day offsets 2,
3 and 4 raise, the other four days return data. -/
def envC4 : Nat → DayResult :=
  fun i => if i = 2 ∨ i = 3 ∨ i = 4 then DayResult.fail else DayResult.ok 20

/-- Per-day responses with three missing-data days (offsets 1, 3, 6) and
no raising day. -/
def envMiss : Nat → DayResult :=
  fun i => if i = 1 ∨ i = 3 ∨ i = 6 then DayResult.nodata else DayResult.ok (10 + i)

/-- Claim C4 counterexample: with days = 7 and exactly 3 of the 7 day
lookups failing (raising, at offsets 2, 3, 4), the output has 2 elements
(days 0 and 1), not the 4 succeeding days the claim predicts: the single
try around the loop aborts the remaining days at the first raise. -/
theorem historical_independence_cex :
    ((List.range 7).filter (fun i => decide (envC4 i = DayResult.fail))).length = 3 ∧
    ((List.range 7).filter (fun i => decide (envC4 i ≠ DayResult.fail))).length = 4 ∧
    (get_historical_weather envC4 7).length = 2 := by
  decide

/-- Claim C4 (amended): a day lookup returning a missing-data response is
dropped independently — when no day raises, the output is exactly the days
with data, in most-recent-first request order; but a day whose request
raises ends the loop, so the output then holds exactly the successful days
before the first raising day. -/
theorem historical_per_day_independence :
    (∀ hist days, (∀ i, i < days → hist i ≠ DayResult.fail) →
      get_historical_weather hist days = (List.range days).filterMap (sampleOf hist)) ∧
    (∀ hist days i, i < days → hist i = DayResult.fail →
      get_historical_weather hist days = get_historical_weather hist i) := by
  constructor
  · intro hist days h
    exact histLoop_eq_filterMap hist (List.range days)
      (fun i hi => h i (List.mem_range.mp hi))
  · intro hist days i hlt hfail
    rcases range_eq_append_of_lt days i hlt with ⟨l₂, hl⟩
    unfold get_historical_weather
    rw [hl, histLoop_append_of_fail hist i hfail]

/-- Claim C4 witness: the amended statement evaluated on concrete runs —
seven days with three missing-data days give the four data-bearing days in
order; a raise at offset 2 truncates the run to the first two days. -/
theorem historical_per_day_independence_witness :
    get_historical_weather envMiss 7 = (List.range 7).filterMap (sampleOf envMiss) ∧
    get_historical_weather envC4 7 = get_historical_weather envC4 2 :=
  ⟨historical_per_day_independence.1 envMiss 7 (by decide),
   historical_per_day_independence.2 envC4 7 2 (by decide) (by decide)⟩

/-- Claim C1: refuting evaluation. A click with a resolvable location whose
current-weather response lacks the `current` key leaves the Python local
`location_info` unassigned (its else-branch is commented out, src lines
175-176), so the callback raises `UnboundLocalError` at the final return
instead of returning a populated result. -/
theorem update_raises_on_missing_current_weather :
    update_map_and_weather
      { geo := HttpResult.ok { features := [[121.5644, 25.0375]] },
        current := CurrentResult.nodata, hist := fun _ => DayResult.ok 20 }
      1 (some ("Taipei"))
      = Except.error ("UnboundLocalError: location_info") := rfl

/-- Claim C2: refuting evaluation. When the geocode returns zero features,
the branch at src lines 197-199 assigns `location_info` and `line_chart`
but never `fig`; since `fig` is assigned elsewhere in the function body it
is a Python local, and the final return raises `UnboundLocalError` instead
of returning the not-found result with the prior map view. -/
theorem update_raises_on_geocode_notfound :
    update_map_and_weather
      { geo := HttpResult.ok { features := [] },
        current := CurrentResult.nodata, hist := fun _ => DayResult.nodata }
      1 (some ("Atlantis"))
      = Except.error ("UnboundLocalError: fig") := rfl

/-- Claim C3: refuting evaluation. After a successful geocode, a
current-weather request that raises makes `get_weather` return `None`;
`location_info` then stays unassigned (the else-branch that would report
the added location with unavailable weather is commented out, src lines
175-176), and the callback raises `UnboundLocalError` at the return — the
marker-bearing figure built at src lines 141-148 is never delivered. -/
theorem update_raises_on_weather_transport_fault :
    update_map_and_weather
      { geo := HttpResult.ok { features := [[120.3014, 22.6273]] },
        current := CurrentResult.fail, hist := fun _ => DayResult.ok 28 }
      1 (some ("Kaohsiung"))
      = Except.error ("UnboundLocalError: location_info") := rfl

/-- Environment in which every request raises. -/
def envAllFail : Env :=
  { geo := HttpResult.fail, current := CurrentResult.fail, hist := fun _ => DayResult.fail }

/-- Claim C5 counterexample: a whitespace-only location string is truthy in
Python, so the guard at src line 134 does not short-circuit and the
callback issues a geocoding request — refuting that whitespace-only input
makes no network call. -/
theorem whitespace_input_triggers_geocode :
    update_calls envAllFail 1 (some (" ")) ≠ [] ∧
    update_calls envAllFail 1 (some (" ")) = [Call.geocode (" ")] := by
  constructor
  · decide
  · rfl

/-- Claim C5 (amended): only absent or empty-string input (or a zero click
count) short-circuits: then no network request is issued and the fixed
awaiting-input result (default map, bare empty chart, fixed prompt) is
returned. Whitespace-only input is not trimmed and does trigger a geocode
request. -/
theorem empty_input_no_network_call :
    ∀ env n_clicks location_name,
      n_clicks = 0 ∨ location_name = none ∨ location_name = some ("") →
      update_calls env n_clicks location_name = [] ∧
      update_map_and_weather env n_clicks location_name = Except.ok awaitingResult := by
  intro env n nm h
  rcases h with h | h | h <;> subst h <;>
    simp [update_calls, update_map_and_weather]

/-- Claim C5 witness: the amended statement at a concrete zero-click
invocation and at a concrete empty-string invocation. -/
theorem empty_input_no_network_call_witness :
    (update_calls envAllFail 0 (some ("Taipei")) = [] ∧
      update_map_and_weather envAllFail 0 (some ("Taipei")) = Except.ok awaitingResult) ∧
    (update_calls envAllFail 3 (some ("")) = [] ∧
      update_map_and_weather envAllFail 3 (some ("")) = Except.ok awaitingResult) :=
  ⟨empty_input_no_network_call envAllFail 0 (some ("Taipei")) (Or.inl rfl),
   empty_input_no_network_call envAllFail 3 (some ("")) (Or.inr (Or.inr rfl))⟩

/-- Geocode environment whose single request raises (transport failure);
weather responses held fixed for comparison with the not-found run. -/
def envTransportFail : Env :=
  { geo := HttpResult.fail, current := CurrentResult.nodata, hist := fun _ => DayResult.nodata }

/-- Geocode environment whose request succeeds with zero candidates
(not found); weather responses as in `envTransportFail`. -/
def envNotFound : Env :=
  { geo := HttpResult.ok { features := [] },
    current := CurrentResult.nodata, hist := fun _ => DayResult.nodata }

/-- Claim C6 counterexample: on a transport-level geocode failure the
callback behaves exactly as on a not-found response — `get_coordinates`
catches the exception and returns `None`, the two runs are
indistinguishable, and neither returns any status message (both raise
`UnboundLocalError` on `fig`): there is no distinct generic failure
message. -/
theorem transport_error_message_not_distinct :
    update_map_and_weather envTransportFail 1 (some ("Paris"))
        = update_map_and_weather envNotFound 1 (some ("Paris")) ∧
    update_map_and_weather envTransportFail 1 (some ("Paris"))
        = Except.error ("UnboundLocalError: fig") := ⟨rfl, rfl⟩

/-- Claim C6 (amended): a transport-level geocode failure is caught inside
`get_coordinates` and surfaces as `None`, making the run identical to the
not-found case (same message handling, no distinguishable generic failure
text); exactly one geocoding request is issued with no internal retry, and
no marker is ever returned. -/
theorem geocode_transport_behaves_as_notfound :
    ∀ cur hist n name,
      (update_map_and_weather { geo := HttpResult.fail, current := cur, hist := hist }
          n (some name) =
        update_map_and_weather
          { geo := HttpResult.ok { features := [] }, current := cur, hist := hist }
          n (some name)) ∧
      (0 < n → name ≠ "" →
        update_calls { geo := HttpResult.fail, current := cur, hist := hist }
          n (some name) = [Call.geocode name]) ∧
      (∀ r, update_map_and_weather { geo := HttpResult.fail, current := cur, hist := hist }
          n (some name) = Except.ok r → r.fig.markers = []) := by
  intro cur hist n name
  refine ⟨?_, ?_, ?_⟩
  · by_cases h : 0 < n ∧ name ≠ ""
    · simp [update_map_and_weather, get_coordinates, h]
    · simp [update_map_and_weather, h]
  · intro hn hname
    simp [update_calls, get_coordinates, hn, hname]
  · intro r hr
    by_cases h : 0 < n ∧ name ≠ ""
    · simp [update_map_and_weather, get_coordinates, h] at hr
    · simp [update_map_and_weather, h] at hr
      rw [← hr]
      rfl

/-- Claim C6 witness: the amended statement evaluated at a concrete
one-click query for the name Paris against `envTransportFail`. -/
theorem geocode_transport_behaves_as_notfound_witness :
    update_map_and_weather envTransportFail 1 (some ("Paris"))
        = update_map_and_weather envNotFound 1 (some ("Paris")) ∧
    update_calls envTransportFail 1 (some ("Paris")) = [Call.geocode ("Paris")] :=
  ⟨(geocode_transport_behaves_as_notfound CurrentResult.nodata
      (fun _ => DayResult.nodata) 1 ("Paris")).1,
   (geocode_transport_behaves_as_notfound CurrentResult.nodata
      (fun _ => DayResult.nodata) 1 ("Paris")).2.1 (by decide) (by decide)⟩

/-- Environment of a fully successful simple query: one geocode candidate
(lon 120.3, lat 22.63), current temperature 29, no historical data. -/
def envOK : Env :=
  { geo := HttpResult.ok { features := [[120.3, 22.63]] },
    current := CurrentResult.ok 29, hist := fun _ => DayResult.nodata }

/-- The callback result of running `envOK` with one click on the name
Kaohsiung, written out explicitly. -/
def resOK : CallbackResult :=
  { fig := { markers := [{ lat := 22.63, lon := 120.3, text := "Kaohsiung" }],
             centerLat := 22.63, centerLon := 120.3, zoom := 7 },
    line_chart := { series := [], title := some ("No historical data available") },
    location_info := "Current temperature: 29°C" }

/-- Claim C7: for every query that resolves and returns, the single marker
placed on the map carries longitude from component 0 and latitude from
component 1 of the first candidate feature of the geocoding response, with
the queried name as its label. -/
theorem marker_equals_first_candidate :
    ∀ env n name data c0 c1 cs fs r,
      0 < n → name ≠ "" →
      env.geo = HttpResult.ok data →
      data.features = (c0 :: c1 :: cs) :: fs →
      update_map_and_weather env n (some name) = Except.ok r →
      r.fig.markers = [{ lat := c1, lon := c0, text := name }] := by
  intro env n name data c0 c1 cs fs r hn hname hgeo hfeat hr
  cases hcur : get_weather env.current with
  | none => simp [update_map_and_weather, get_coordinates, hgeo, hfeat, hn, hname, hcur] at hr
  | some t =>
    simp [update_map_and_weather, get_coordinates, hgeo, hfeat, hn, hname, hcur] at hr
    rw [← hr]

/-- Claim C7 witness: the concrete successful query against `envOK` places
the marker at lat 22.63, lon 120.3 — the first (only) candidate of the
geocode response, components swapped into lon/lat order. -/
theorem marker_equals_first_candidate_witness :
    resOK.fig.markers = [{ lat := 22.63, lon := 120.3, text := "Kaohsiung" }] :=
  marker_equals_first_candidate envOK 1 ("Kaohsiung") { features := [[120.3, 22.63]] }
    120.3 22.63 [] [] resOK (by decide) (by decide) rfl rfl rfl

/-- Claim C8 counterexample: the zoom after a successful query is 7, the
same value as the default overview zoom — the claimed distinct focused
zoom does not exist in the code (src lines 162 and 213 both say 7). -/
theorem focused_zoom_equals_default_zoom :
    (update_map_and_weather envOK 1 (some ("Kaohsiung"))).toOption.map
        (fun r => r.fig.zoom) = some 7 ∧
    defaultFig.zoom = 7 ∧
    awaitingResult.fig.zoom = 7 := ⟨rfl, rfl, rfl⟩

/-- Claim C8 (amended): when a query geocodes successfully and the callback
returns, the map centers on the resolved coordinate with zoom 7; when no
query has been made (zero clicks), the map is the fixed default (center
lat 23.6978, lon 120.9605) with zoom 7 — the two zoom levels coincide
rather than being distinct. -/
theorem map_view_invariant :
    (∀ env n name c r, 0 < n → name ≠ "" →
        get_coordinates env.geo = some c →
        update_map_and_weather env n (some name) = Except.ok r →
        r.fig.centerLat = c.lat ∧ r.fig.centerLon = c.lon ∧ r.fig.zoom = 7) ∧
    (∀ env nm r, update_map_and_weather env 0 nm = Except.ok r → r.fig = defaultFig) := by
  constructor
  · intro env n name c r hn hname hc hr
    cases hcur : get_weather env.current with
    | none => simp [update_map_and_weather, hn, hname, hc, hcur] at hr
    | some t =>
      simp [update_map_and_weather, hn, hname, hc, hcur] at hr
      rw [← hr]
      exact ⟨rfl, rfl, rfl⟩
  · intro env nm r hr
    simp [update_map_and_weather] at hr
    rw [← hr]
    rfl

/-- Claim C8 witness: the amended invariant evaluated on the concrete
successful query against `envOK` and on a concrete zero-click render. -/
theorem map_view_invariant_witness :
    (resOK.fig.centerLat = 22.63 ∧ resOK.fig.centerLon = 120.3 ∧ resOK.fig.zoom = 7) ∧
    awaitingResult.fig = defaultFig :=
  ⟨map_view_invariant.1 envOK 1 ("Kaohsiung") { lon := 120.3, lat := 22.63 } resOK
      (by decide) (by decide) rfl rfl,
   map_view_invariant.2 envOK (some ("Taipei")) awaitingResult rfl⟩

/-- Claim C9: every query invocation that returns and whose chart series is
empty carries the explicit no-data title on the chart — the empty-history
branch at src lines 195-196 labels the otherwise empty figure. -/
theorem empty_history_chart_labeled :
    ∀ env n name r, 0 < n → name ≠ "" →
      update_map_and_weather env n (some name) = Except.ok r →
      r.line_chart.series = [] →
      r.line_chart.title = some ("No historical data available") := by
  intro env n name r hn hname hr hser
  cases hc : get_coordinates env.geo with
  | none => simp [update_map_and_weather, hn, hname, hc] at hr
  | some c =>
    cases hcur : get_weather env.current with
    | none => simp [update_map_and_weather, hn, hname, hc, hcur] at hr
    | some t =>
      by_cases hh : get_historical_weather env.hist 7 = []
      · simp [update_map_and_weather, hn, hname, hc, hcur, hh] at hr
        rw [← hr]
      · simp [update_map_and_weather, hn, hname, hc, hcur, hh] at hr
        rw [← hr] at hser
        simp at hser
        exact absurd hser hh

/-- Claim C9 witness: the concrete query against `envOK` (every historical
day returns no data) yields an empty series and the no-data title. -/
theorem empty_history_chart_labeled_witness :
    resOK.line_chart.title = some ("No historical data available") :=
  empty_history_chart_labeled envOK 1 ("Kaohsiung") resOK (by decide) (by decide) rfl rfl

/-- Claim C10: for every click event (clickData absent, or present with at
least one clicked point as Dash delivers it), `print_coordinates` returns
its input unchanged; it only prints to the console and touches no figure
or marker state. -/
theorem print_coordinates_identity :
    ∀ cd, (∀ d, cd = some d → d.points ≠ []) →
      print_coordinates cd = Except.ok cd := by
  intro cd h
  cases cd with
  | none => rfl
  | some d =>
    cases hd : d.points with
    | nil => exact absurd hd (h d rfl)
    | cons p ps => simp [print_coordinates, hd]

/-- Claim C10 witness: a concrete click payload with one point is returned
unchanged. -/
theorem print_coordinates_identity_witness :
    print_coordinates (some { points := [{ lat := 25.0375, lon := 121.5644 }] })
        = Except.ok (some { points := [{ lat := 25.0375, lon := 121.5644 }] }) :=
  print_coordinates_identity (some { points := [{ lat := 25.0375, lon := 121.5644 }] })
    (by intro d hd; cases hd; decide)

end WeatherApp
